import Mathlib

/-!
Verification of the image-to-prompt single-page application: the session
state machine of the UI controller (App component) and the request adapter
(generatePromptFromImage in geminiService.ts), shallowly embedded.

The network and file-reader behaviour is supplied by an oracle
(`NetBehavior`); everything else is translated directly from the source.
-/

/-- Boolean prefix test on character lists; models JavaScript
String.startsWith ("is this the leading run of that"). -/
def charsLeadWith : List Char → List Char → Bool
  | [], _ => true
  | _ :: _, [] => false
  | p :: ps, c :: cs => (p == c) && charsLeadWith ps cs

/-- Boolean substring-occurrence test on character lists; models JavaScript
String.includes. -/
def charsOccur (pat : List Char) : List Char → Bool
  | [] => charsLeadWith pat []
  | c :: cs => charsLeadWith pat (c :: cs) || charsOccur pat cs

/-- JavaScript s.startsWith(pre). -/
def strStarts (s pre : String) : Bool := charsLeadWith pre.data s.data

/-- JavaScript s.includes(pat). -/
def strIncludes (s pat : String) : Bool := charsOccur pat.data s.data

/-- JavaScript truthiness of a string-or-undefined value: undefined and the
empty string are falsy. -/
def jsTruthy : Option String → Bool
  | none => false
  | some t => !t.isEmpty

/-- A user-selected file: name, declared media type, raw content. -/
structure File where
  name : String
  type : String
  content : String
deriving DecidableEq, Repr

/-- One response candidate, exposing an optional finish reason
(response.candidates?.[0]?.finishReason). -/
structure Candidate where
  finishReason : Option String
deriving DecidableEq, Repr

/-- The remote model response object: optional generated text and the
candidate list (either may be absent in the SDK; an absent list is modelled
by []). -/
structure GenResponse where
  text : Option String
  candidates : List Candidate
deriving DecidableEq, Repr

/-- Oracle for the effectful part of one adapter invocation:
  * readFail  - fileToGenerativePart rejects (FileReader failure), which
    happens before the network request is issued;
  * callFail  - ai.models.generateContent rejects with an error message;
  * respond   - generateContent resolves with a response object. -/
inductive NetBehavior where
  | readFail (msg : String)
  | callFail (msg : String)
  | respond (resp : GenResponse)
deriving DecidableEq, Repr

/-- How many outbound network requests one adapter run makes under the given
oracle behaviour: a file-read failure occurs before generateContent is
called, the other two behaviours are outcomes of the single call. -/
def netCallCount : NetBehavior → Nat
  | NetBehavior.readFail _ => 0
  | NetBehavior.callFail _ => 1
  | NetBehavior.respond _ => 1

/-- Process-wide configuration plus the oracle for one adapter run:
process.env.API_KEY (undefined modelled as none) and the network
behaviour. -/
structure GenEnv where
  apiKey : Option String
  net : NetBehavior
deriving DecidableEq, Repr

/-- The encoded image part sent to the model (fileToGenerativePart):
base64 data paired with the declared media type. Base64 encoding itself is
irrelevant to every claim, so content stands for the encoded data. -/
structure GenerativePart where
  data : String
  mimeType : String
deriving DecidableEq, Repr

/-- fileToGenerativePart (geminiService.ts, lines 4-27): pairs the encoded
file bytes with file.type. -/
def fileToGenerativePart (file : File) : GenerativePart :=
  { data := file.content, mimeType := file.type }

/-- The fixed instruction text sent alongside the image
(geminiService.ts, lines 40-51). -/
def promptInstruction : String :=
  "Analyze this image and describe it in extreme detail. The description must be a creative, evocative, and inspiring prompt suitable for an advanced text-to-image AI like Midjourney or DALL-E.\n\nYour description should cover:\n- **Subject:** What is the main focus? Describe it with rich adjectives.\n- **Composition:** How is the shot framed (e.g., close-up, wide shot, rule of thirds)?\n- **Environment/Background:** What surrounds the subject? Describe the setting.\n- **Lighting:** Describe the quality of light (e.g., soft morning light, dramatic studio lighting, neon glow).\n- **Color Palette:** What are the dominant and accent colors?\n- **Style/Medium:** Is it photorealistic, an oil painting, digital art, 3D render, etc.?\n- **Mood/Atmosphere:** What feeling does the image evoke (e.g., serene, chaotic, nostalgic, futuristic)?\n\nCombine these elements into a single, cohesive paragraph. Write the response in English."

/-- The try-block of generatePromptFromImage (geminiService.ts, lines
36-69): a thrown Error is an Except.error carrying the Error message.
On a response, `const text = response.text; if (text) return text;`
otherwise the first candidate finish reason is inspected. -/
def tryBlock (net : NetBehavior) : Except String String :=
  match net with
  | NetBehavior.readFail m => Except.error m
  | NetBehavior.callFail m => Except.error m
  | NetBehavior.respond resp =>
    if jsTruthy resp.text then
      Except.ok (resp.text.getD "")
    else if ((resp.candidates.head?).bind Candidate.finishReason) == some "SAFETY" then
      Except.error "Could not generate a prompt. The image was blocked due to safety policies."
    else
      Except.error "Failed to generate prompt. The model returned an empty response."

/-- The catch-block of generatePromptFromImage (geminiService.ts, lines
70-77): error.message.includes handling for an invalid key, then
`error.message || fallback`. -/
def catchBlock (msg : String) : String :=
  if strIncludes msg "API key not valid" then
    "The provided API key is not valid. Please check your configuration."
  else if msg.isEmpty then
    "An error occurred while communicating with the AI model."
  else msg

/-- generatePromptFromImage (geminiService.ts, lines 29-78). Returns the
normalized outcome together with the number of outbound network requests
made. A falsy process.env.API_KEY throws before the GoogleGenAI client is
even constructed, so no request is made. -/
def generatePromptFromImage (env : GenEnv) (imageFile : File) :
    Except String String × Nat :=
  if !(jsTruthy env.apiKey) then
    (Except.error "API key is not configured. Please set up your environment variables.", 0)
  else
    let _imagePart := fileToGenerativePart imageFile
    let _instruction := promptInstruction
    match tryBlock env.net with
    | Except.ok t => (Except.ok t, netCallCount env.net)
    | Except.error m => (Except.error (catchBlock m), netCallCount env.net)

/-- The five UI states (part_000, line 5). -/
inductive Status where
  | initial
  | imageSelected
  | loading
  | success
  | error
deriving DecidableEq, Repr

/-- The component state of App (part_000, lines 8-12): imageFile, prompt,
status, error, isCopied. -/
structure Session where
  imageFile : Option File
  prompt : String
  status : Status
  error : String
  isCopied : Bool
deriving DecidableEq, Repr

/-- The initial component state (part_000, lines 8-12). -/
def initialSession : Session :=
  { imageFile := none, prompt := "", status := Status.initial,
    error := "", isCopied := false }

/-- handleImageChange (part_000, lines 21-34), applied to the optional
first file of the change event. -/
def handleImageChange (s : Session) (file? : Option File) : Session :=
  match file? with
  | none => s
  | some file =>
    if !(strStarts file.type "image/") then
      { s with error := "Please upload a valid image file (PNG, JPG, etc.).",
               status := Status.error }
    else
      { s with imageFile := some file, prompt := "", error := "",
               status := Status.imageSelected }

/-- handleGeneratePrompt (part_000, lines 36-52): returns (no-op) when no
image is selected; otherwise enters loading, clears prompt and error, runs
the adapter, and applies the success or catch transition. The second
component is the number of outbound network requests made. -/
def handleGeneratePrompt (env : GenEnv) (s : Session) : Session × Nat :=
  match s.imageFile with
  | none => (s, 0)
  | some file =>
    let s1 : Session := { s with status := Status.loading, error := "", prompt := "" }
    match generatePromptFromImage env file with
    | (Except.ok t, n) =>
        ({ s1 with prompt := t, status := Status.success }, n)
    | (Except.error m, n) =>
        ({ s1 with
             error := if m.isEmpty then "An unexpected error occurred. Please try again." else m,
             status := Status.error }, n)

/-- The user-facing generation action: the generate button carries
disabled = (status equals loading) (part_000, line 109), so a click while
loading dispatches nothing; otherwise it dispatches handleGeneratePrompt. -/
def requestGeneration (env : GenEnv) (s : Session) : Session × Nat :=
  if s.status = Status.loading then (s, 0)
  else handleGeneratePrompt env s

/-- handleCopy (part_000, lines 54-60): when the prompt is truthy, writes
it to the clipboard (returned as the second component) and sets isCopied;
the timer that later clears isCopied is copyTimerElapsed. -/
def handleCopy (s : Session) : Session × Option String :=
  if !s.prompt.isEmpty then
    ({ s with isCopied := true }, some s.prompt)
  else
    (s, none)

/-- The setTimeout delay, in milliseconds, after which isCopied is cleared
(part_000, line 58). -/
def copyResetDelayMs : Nat := 2000

/-- The setTimeout callback of handleCopy (part_000, line 58): clears
isCopied and nothing else. -/
def copyTimerElapsed (s : Session) : Session :=
  { s with isCopied := false }

/-- resetState (part_000, lines 62-67): clears image, prompt, error and
returns to the initial status. -/
def resetState (s : Session) : Session :=
  { s with imageFile := none, prompt := "", error := "", status := Status.initial }

/-- The user-level operations on a session. -/
inductive Op where
  | select (file? : Option File)
  | generate (env : GenEnv)
  | copy
  | copyTimer
  | reset
deriving Repr

/-- Applying one operation: the resulting session and the number of
outbound network requests made. Only handleGeneratePrompt ever invokes the
adapter; the other four handlers contain no network activity. -/
def applyOp (s : Session) : Op → Session × Nat
  | Op.select f? => (handleImageChange s f?, 0)
  | Op.generate env => requestGeneration env s
  | Op.copy => ((handleCopy s).1, 0)
  | Op.copyTimer => (copyTimerElapsed s, 0)
  | Op.reset => (resetState s, 0)

/-- Sessions reachable from the initial component state by any sequence of
user-level operations. -/
inductive Reachable : Session → Prop where
  | init : Reachable initialSession
  | step (s : Session) (op : Op) : Reachable s → Reachable (applyOp s op).1

/-! Helper lemmas and concrete fixtures used by the claim theorems and
their witnesses. -/

theorem ne_of_isEmpty_false (s : String) (h : s.isEmpty = false) : s ≠ "" := by
  intro he
  subst he
  exact absurd h (by decide)

theorem isEmpty_false_of_ne (s : String) (h : s ≠ "") : s.isEmpty = false := by
  cases hb : s.isEmpty with
  | false => rfl
  | true => exact absurd ((String.isEmpty_iff s).mp hb) h

/-- A concrete valid image file. -/
def pngFile : File :=
  { name := "photo.png", type := "image/png", content := "PNGDATA" }

/-- A concrete non-image file. -/
def txtFile : File :=
  { name := "notes.txt", type := "text/plain", content := "hello" }

/-- A concrete successful model response. -/
def okResp : GenResponse :=
  { text := some "A golden retriever.", candidates := [] }

/-- Environment with a configured key and a successful response. -/
def okEnv : GenEnv :=
  { apiKey := some "k", net := NetBehavior.respond okResp }

/-- Environment with no API key configured. -/
def noKeyEnv : GenEnv :=
  { apiKey := none, net := NetBehavior.respond okResp }

/-- Environment whose response is empty with a SAFETY finish reason. -/
def safetyEnv : GenEnv :=
  { apiKey := some "k",
    net := NetBehavior.respond
      { text := none, candidates := [{ finishReason := some "SAFETY" }] } }

/-- Environment whose response is empty with no finish reason. -/
def emptyEnv : GenEnv :=
  { apiKey := some "k", net := NetBehavior.respond { text := none, candidates := [] } }

/-- Environment whose network call fails with an empty error message. -/
def blankFailEnv : GenEnv :=
  { apiKey := some "k", net := NetBehavior.callFail "" }

/-- A concrete session with an image selected. -/
def selSession : Session :=
  { imageFile := some pngFile, prompt := "", status := Status.imageSelected,
    error := "", isCopied := false }

/-- A concrete session in the loading state. -/
def loadingSession : Session :=
  { imageFile := some pngFile, prompt := "", status := Status.loading,
    error := "", isCopied := false }

/-- A concrete session in the success state with a prompt. -/
def successSession : Session :=
  { imageFile := some pngFile, prompt := "A golden retriever.",
    status := Status.success, error := "", isCopied := false }

/-- A tryBlock outcome Except.ok t only arises from a truthy response text,
so the returned text is non-empty. -/
theorem tryBlock_ok_ne_empty (net : NetBehavior) (t : String)
    (h : tryBlock net = Except.ok t) : t ≠ "" := by
  cases net with
  | readFail m => simp [tryBlock] at h
  | callFail m => simp [tryBlock] at h
  | respond resp =>
    by_cases ht : jsTruthy resp.text = true
    · cases htext : resp.text with
      | none => rw [htext] at ht; simp [jsTruthy] at ht
      | some t0 =>
        rw [htext] at ht
        simp only [tryBlock, ht, if_true, htext, Option.getD_some] at h
        simp only [Except.ok.injEq] at h
        subst h
        rw [jsTruthy] at ht
        exact ne_of_isEmpty_false t0 (by revert ht; cases t0.isEmpty <;> simp)
    · rw [Bool.not_eq_true] at ht
      simp only [tryBlock, ht, Bool.false_eq_true, if_false] at h
      revert h
      split <;> simp


/-- When the key is truthy, the adapter result is the tryBlock result with
the catch transformation applied to errors, and the call count is
netCallCount. -/
theorem gen_eq_of_truthy (env : GenEnv) (f : File)
    (hk : jsTruthy env.apiKey = true) :
    generatePromptFromImage env f =
      (match tryBlock env.net with
       | Except.ok t => (Except.ok t, netCallCount env.net)
       | Except.error m => (Except.error (catchBlock m), netCallCount env.net)) := by
  simp [generatePromptFromImage, hk]

/-- An adapter outcome Except.ok t always carries a non-empty text. -/
theorem gen_ok_ne_empty (env : GenEnv) (f : File) (t : String)
    (h : (generatePromptFromImage env f).1 = Except.ok t) : t ≠ "" := by
  by_cases hk : jsTruthy env.apiKey = true
  · rw [gen_eq_of_truthy env f hk] at h
    cases htb : tryBlock env.net with
    | ok t0 =>
      rw [htb] at h
      simp only [Except.ok.injEq] at h
      subst h
      exact tryBlock_ok_ne_empty env.net t0 htb
    | error m => rw [htb] at h; simp at h
  · simp [generatePromptFromImage, Bool.not_eq_true _ ▸ hk] at h

/-- With a truthy key and a tryBlock error, the adapter returns the
catch-transformed message. -/
theorem gen_err_of_truthy (env : GenEnv) (f : File) (m : String)
    (hk : jsTruthy env.apiKey = true) (htb : tryBlock env.net = Except.error m) :
    generatePromptFromImage env f = (Except.error (catchBlock m), netCallCount env.net) := by
  rw [gen_eq_of_truthy env f hk, htb]

/-- With a truthy key and a tryBlock success, the adapter returns the text
unchanged. -/
theorem gen_ok_of_truthy (env : GenEnv) (f : File) (t : String)
    (hk : jsTruthy env.apiKey = true) (htb : tryBlock env.net = Except.ok t) :
    generatePromptFromImage env f = (Except.ok t, netCallCount env.net) := by
  rw [gen_eq_of_truthy env f hk, htb]

/-- Evaluation of requestGeneration when an image is selected and the state
is not loading: the adapter outcome is applied on top of the loading
transition. -/
theorem requestGeneration_eq (env : GenEnv) (s : Session) (f : File)
    (hf : s.imageFile = some f) (hl : s.status ≠ Status.loading) :
    requestGeneration env s =
      (match generatePromptFromImage env f with
       | (Except.ok t, n) =>
           ({ s with status := Status.success, error := "", prompt := t }, n)
       | (Except.error m, n) =>
           ({ s with status := Status.error,
                     error := if m.isEmpty then "An unexpected error occurred. Please try again." else m,
                     prompt := "" }, n)) := by
  rcases hg : generatePromptFromImage env f with ⟨r, n⟩
  cases r with
  | ok t => simp [requestGeneration, hl, handleGeneratePrompt, hf, hg]
  | error m => simp [requestGeneration, hl, handleGeneratePrompt, hf, hg]

/-- C1: for every image file, if the API credential is absent from
process-wide configuration at call time, requestGeneration ends in the
error state with the configuration message (which mentions that the API key
is not configured), and the adapter fails immediately, making zero network
calls. -/
theorem c1_missing_key_config_error (env : GenEnv) (s : Session) (f : File)
    (hk : env.apiKey = none) (hf : s.imageFile = some f)
    (hl : s.status ≠ Status.loading) :
    (requestGeneration env s).1.status = Status.error ∧
    (requestGeneration env s).1.error =
      "API key is not configured. Please set up your environment variables." ∧
    strIncludes (requestGeneration env s).1.error "API key is not configured" = true ∧
    (requestGeneration env s).2 = 0 := by
  have hg : generatePromptFromImage env f =
      (Except.error "API key is not configured. Please set up your environment variables.", 0) := by
    simp [generatePromptFromImage, hk, jsTruthy]
  simp only [requestGeneration_eq env s f hf hl, hg]
  refine ⟨trivial, by decide, by decide, trivial⟩

theorem c1_missing_key_config_error_witness :
    (requestGeneration noKeyEnv selSession).1.status = Status.error ∧
    (requestGeneration noKeyEnv selSession).1.error =
      "API key is not configured. Please set up your environment variables." ∧
    strIncludes (requestGeneration noKeyEnv selSession).1.error "API key is not configured" = true ∧
    (requestGeneration noKeyEnv selSession).2 = 0 :=
  c1_missing_key_config_error noKeyEnv selSession pngFile rfl rfl (by decide)

/-- C2: clicking generate while the session is already loading dispatches
nothing: the session is unchanged and zero outbound calls are made. -/
theorem c2_loading_noop (env : GenEnv) (s : Session) (f : File)
    (_hf : s.imageFile = some f) (hl : s.status = Status.loading) :
    requestGeneration env s = (s, 0) := by
  simp [requestGeneration, hl]

theorem c2_loading_noop_witness :
    requestGeneration okEnv loadingSession = (loadingSession, 0) :=
  c2_loading_noop okEnv loadingSession pngFile rfl rfl

/-- C3: whenever the adapter outcome is success with a non-empty text, the
final state is success and the stored prompt equals that text exactly. -/
theorem c3_success_exact_text (env : GenEnv) (s : Session) (f : File) (t : String)
    (hf : s.imageFile = some f) (hl : s.status ≠ Status.loading)
    (ha : (generatePromptFromImage env f).1 = Except.ok t) (_ht : t ≠ "") :
    (requestGeneration env s).1.status = Status.success ∧
    (requestGeneration env s).1.prompt = t := by
  rcases hg : generatePromptFromImage env f with ⟨r, n⟩
  rw [hg] at ha
  simp only [Prod.fst] at ha
  subst ha
  rw [requestGeneration_eq env s f hf hl, hg]
  exact ⟨rfl, rfl⟩

theorem c3_success_exact_text_witness :
    (requestGeneration okEnv selSession).1.status = Status.success ∧
    (requestGeneration okEnv selSession).1.prompt = "A golden retriever." :=
  c3_success_exact_text okEnv selSession pngFile "A golden retriever."
    rfl (by decide) rfl (by decide)

/-- C4: when the remote response has empty (falsy) text, the session ends
in the error state; the message is the safety-block message exactly when
the first candidate finish reason is SAFETY, and the empty-response message
otherwise. -/
theorem c4_empty_response_classification (env : GenEnv) (s : Session) (f : File)
    (resp : GenResponse)
    (hf : s.imageFile = some f) (hl : s.status ≠ Status.loading)
    (hk : jsTruthy env.apiKey = true)
    (hn : env.net = NetBehavior.respond resp)
    (he : jsTruthy resp.text = false) :
    (requestGeneration env s).1.status = Status.error ∧
    (requestGeneration env s).1.error =
      (if (resp.candidates.head?).bind Candidate.finishReason = some "SAFETY"
       then "Could not generate a prompt. The image was blocked due to safety policies."
       else "Failed to generate prompt. The model returned an empty response.") := by
  by_cases hs : (resp.candidates.head?).bind Candidate.finishReason = some "SAFETY"
  · have htb : tryBlock env.net =
        Except.error "Could not generate a prompt. The image was blocked due to safety policies." := by
      simp [tryBlock, hn, he, hs]
    simp only [requestGeneration_eq env s f hf hl, gen_err_of_truthy env f _ hk htb, hs]
    refine ⟨trivial, by decide⟩
  · have htb : tryBlock env.net =
        Except.error "Failed to generate prompt. The model returned an empty response." := by
      simp [tryBlock, hn, he, hs]
    simp only [requestGeneration_eq env s f hf hl, gen_err_of_truthy env f _ hk htb, hs]
    refine ⟨trivial, by decide⟩

theorem c4_empty_response_classification_witness :
    (requestGeneration safetyEnv selSession).1.status = Status.error ∧
    (requestGeneration safetyEnv selSession).1.error =
      (if (([{ finishReason := some "SAFETY" }] : List Candidate).head?).bind Candidate.finishReason = some "SAFETY"
       then "Could not generate a prompt. The image was blocked due to safety policies."
       else "Failed to generate prompt. The model returned an empty response.") :=
  c4_empty_response_classification safetyEnv selSession pngFile
    { text := none, candidates := [{ finishReason := some "SAFETY" }] }
    rfl (by decide) rfl rfl rfl

/-- C5: selecting a file whose declared media type does not begin with
image/ puts the session in the error state with a message mentioning
"valid image file", and the selection operation makes zero outbound
network calls. -/
theorem c5_invalid_file_rejected (s : Session) (f : File)
    (h : strStarts f.type "image/" = false) :
    (handleImageChange s (some f)).status = Status.error ∧
    strIncludes (handleImageChange s (some f)).error "valid image file" = true ∧
    (applyOp s (Op.select (some f))).2 = 0 := by
  simp only [handleImageChange, h, Bool.not_false, if_true, applyOp]
  refine ⟨trivial, by decide, trivial⟩

theorem c5_invalid_file_rejected_witness :
    (handleImageChange initialSession (some txtFile)).status = Status.error ∧
    strIncludes (handleImageChange initialSession (some txtFile)).error "valid image file" = true ∧
    (applyOp initialSession (Op.select (some txtFile))).2 = 0 :=
  c5_invalid_file_rejected initialSession txtFile (by decide)

/-- C6 (amended): on a transport/service failure the adapter inspects the
error message; if it contains "API key not valid" the outcome is the
invalid-key configuration message (distinct from the missing-key message);
otherwise the outcome is a transport error carrying the underlying message
when that message is non-empty, and the generic communication-failure
message when the underlying message is empty. -/
theorem c6_catch_classification (env : GenEnv) (f : File) (m : String)
    (hk : jsTruthy env.apiKey = true) (hn : env.net = NetBehavior.callFail m) :
    (strIncludes m "API key not valid" = true →
      (generatePromptFromImage env f).1 =
        Except.error "The provided API key is not valid. Please check your configuration.") ∧
    (strIncludes m "API key not valid" = false → m ≠ "" →
      (generatePromptFromImage env f).1 = Except.error m) ∧
    (strIncludes m "API key not valid" = false → m = "" →
      (generatePromptFromImage env f).1 =
        Except.error "An error occurred while communicating with the AI model.") ∧
    "The provided API key is not valid. Please check your configuration." ≠
      "API key is not configured. Please set up your environment variables." := by
  have htb : tryBlock env.net = Except.error m := by rw [hn]; rfl
  rw [gen_err_of_truthy env f m hk htb]
  refine ⟨fun h1 => ?_, fun h1 h2 => ?_, fun h1 h2 => ?_, by decide⟩
  · show Except.error (catchBlock m) = _
    rw [catchBlock, if_pos h1]
  · show Except.error (catchBlock m) = _
    rw [catchBlock, if_neg (by simp [h1]), if_neg (by simp [isEmpty_false_of_ne m h2])]
  · subst h2
    show Except.error (catchBlock "") = _
    exact congrArg Except.error (by decide)

theorem c6_catch_classification_witness :
    (strIncludes "API key not valid." "API key not valid" = true →
      (generatePromptFromImage { apiKey := some "k", net := NetBehavior.callFail "API key not valid." } pngFile).1 =
        Except.error "The provided API key is not valid. Please check your configuration.") ∧
    (strIncludes "API key not valid." "API key not valid" = false → "API key not valid." ≠ "" →
      (generatePromptFromImage { apiKey := some "k", net := NetBehavior.callFail "API key not valid." } pngFile).1 =
        Except.error "API key not valid.") ∧
    (strIncludes "API key not valid." "API key not valid" = false → "API key not valid." = "" →
      (generatePromptFromImage { apiKey := some "k", net := NetBehavior.callFail "API key not valid." } pngFile).1 =
        Except.error "An error occurred while communicating with the AI model.") ∧
    "The provided API key is not valid. Please check your configuration." ≠
      "API key is not configured. Please set up your environment variables." :=
  c6_catch_classification { apiKey := some "k", net := NetBehavior.callFail "API key not valid." }
    pngFile "API key not valid." rfl rfl

/-- C6 counterexample: the claim as stated fails for a transport failure
whose underlying message is empty; the outcome does not carry the empty
message but the generic communication-failure message. -/
theorem c6_counterexample :
    strIncludes "" "API key not valid" = false ∧
    (generatePromptFromImage blankFailEnv pngFile).1 ≠ Except.error "" ∧
    (generatePromptFromImage blankFailEnv pngFile).1 =
      Except.error "An error occurred while communicating with the AI model." := by
  refine ⟨by decide, ?_, rfl⟩
  intro h
  exact absurd (congrArg (fun r => match r with | Except.error m => m | Except.ok t => t) h) (by decide)

/-- Invariant of every reachable session: an error status carries a
non-empty error message, and a success status carries a non-empty
prompt. -/
theorem reachable_inv (s : Session) (hr : Reachable s) :
    (s.status = Status.error → s.error ≠ "") ∧
    (s.status = Status.success → s.prompt ≠ "") := by
  induction hr with
  | init =>
      constructor <;> intro h <;> simp [initialSession] at h
  | step s op _ ih =>
      cases op with
      | select f? =>
          cases f? with
          | none => simpa [applyOp, handleImageChange] using ih
          | some f =>
              by_cases h : strStarts f.type "image/" = true
              · constructor <;> intro hst <;>
                  simp [applyOp, handleImageChange, h] at hst
              · rw [Bool.not_eq_true] at h
                constructor
                · intro _
                  simp only [applyOp, handleImageChange, h, Bool.not_false, if_true]
                  decide
                · intro hst
                  simp [applyOp, handleImageChange, h] at hst
      | generate env =>
          by_cases hl : s.status = Status.loading
          · have hnoop : applyOp s (Op.generate env) = (s, 0) := by
              simp [applyOp, requestGeneration, hl]
            rw [hnoop]
            exact ih
          · cases hf : s.imageFile with
            | none =>
                simpa [applyOp, requestGeneration, hl, handleGeneratePrompt, hf] using ih
            | some f =>
                rcases hg : generatePromptFromImage env f with ⟨r, n⟩
                cases r with
                | ok t =>
                    constructor
                    · intro hst
                      simp [applyOp, requestGeneration_eq env s f hf hl, hg] at hst
                    · intro _
                      simp only [applyOp, requestGeneration_eq env s f hf hl, hg]
                      exact gen_ok_ne_empty env f t (by rw [hg])
                | error m =>
                    constructor
                    · intro _
                      simp only [applyOp, requestGeneration_eq env s f hf hl, hg]
                      by_cases hm : m.isEmpty = true
                      · simp only [hm, if_true]
                        decide
                      · rw [Bool.not_eq_true] at hm
                        simp only [hm, Bool.false_eq_true, if_false]
                        exact ne_of_isEmpty_false m hm
                    · intro hst
                      simp [applyOp, requestGeneration_eq env s f hf hl, hg] at hst
      | copy =>
          by_cases hp : s.prompt.isEmpty = true <;>
            simpa [applyOp, handleCopy, hp] using ih
      | copyTimer =>
          simpa [applyOp, copyTimerElapsed] using ih
      | reset =>
          constructor <;> intro h <;> simp [applyOp, resetState] at h

/-- C7: in every reachable session, the error state carries a non-empty
error message; no failure path leaves the message empty. -/
theorem c7_error_message_nonempty (s : Session) (hr : Reachable s)
    (he : s.status = Status.error) : s.error ≠ "" :=
  (reachable_inv s hr).1 he

theorem c7_error_message_nonempty_witness :
    (applyOp initialSession (Op.select (some txtFile))).1.error ≠ "" :=
  c7_error_message_nonempty (applyOp initialSession (Op.select (some txtFile))).1
    (Reachable.step initialSession (Op.select (some txtFile)) Reachable.init)
    (by decide)

/-- C9: in every reachable session, the success state carries a non-empty
prompt, because the success transition only stores adapter text that passed
the truthiness check. -/
theorem c9_success_prompt_nonempty (s : Session) (hr : Reachable s)
    (hs : s.status = Status.success) : s.prompt ≠ "" :=
  (reachable_inv s hr).2 hs

theorem c9_success_prompt_nonempty_witness :
    (applyOp (applyOp initialSession (Op.select (some pngFile))).1
      (Op.generate okEnv)).1.prompt ≠ "" :=
  c9_success_prompt_nonempty
    (applyOp (applyOp initialSession (Op.select (some pngFile))).1 (Op.generate okEnv)).1
    (Reachable.step (applyOp initialSession (Op.select (some pngFile))).1
      (Op.generate okEnv)
      (Reachable.step initialSession (Op.select (some pngFile)) Reachable.init))
    (by decide)

/-- C8: when a non-empty prompt is present, handleCopy writes exactly that
prompt to the clipboard and sets the acknowledgment flag; status, image,
prompt and error message are all unchanged; the fixed delay is 2000
milliseconds, after which the timer callback clears only the flag. -/
theorem c8_copy_prompt (s : Session) (hp : s.prompt ≠ "") :
    (handleCopy s).2 = some s.prompt ∧
    (handleCopy s).1.isCopied = true ∧
    (handleCopy s).1.status = s.status ∧
    (handleCopy s).1.imageFile = s.imageFile ∧
    (handleCopy s).1.prompt = s.prompt ∧
    (handleCopy s).1.error = s.error ∧
    (copyTimerElapsed (handleCopy s).1).isCopied = false ∧
    (copyTimerElapsed (handleCopy s).1).status = s.status ∧
    (copyTimerElapsed (handleCopy s).1).imageFile = s.imageFile ∧
    (copyTimerElapsed (handleCopy s).1).prompt = s.prompt ∧
    (copyTimerElapsed (handleCopy s).1).error = s.error ∧
    copyResetDelayMs = 2000 := by
  have h : s.prompt.isEmpty = false := isEmpty_false_of_ne s.prompt hp
  simp [handleCopy, copyTimerElapsed, h, copyResetDelayMs]

theorem c8_copy_prompt_witness :
    (handleCopy successSession).2 = some successSession.prompt ∧
    (handleCopy successSession).1.isCopied = true ∧
    (handleCopy successSession).1.status = successSession.status ∧
    (handleCopy successSession).1.imageFile = successSession.imageFile ∧
    (handleCopy successSession).1.prompt = successSession.prompt ∧
    (handleCopy successSession).1.error = successSession.error ∧
    (copyTimerElapsed (handleCopy successSession).1).isCopied = false ∧
    (copyTimerElapsed (handleCopy successSession).1).status = successSession.status ∧
    (copyTimerElapsed (handleCopy successSession).1).imageFile = successSession.imageFile ∧
    (copyTimerElapsed (handleCopy successSession).1).prompt = successSession.prompt ∧
    (copyTimerElapsed (handleCopy successSession).1).error = successSession.error ∧
    copyResetDelayMs = 2000 :=
  c8_copy_prompt successSession (by decide)

/-- C10: an invalid (non-image) selection changes only the status and the
error message; the previously stored image file, prompt text and copy flag
are left unchanged. -/
theorem c10_invalid_selection_frame (s : Session) (f : File)
    (h : strStarts f.type "image/" = false) :
    handleImageChange s (some f) =
      { s with status := Status.error,
               error := "Please upload a valid image file (PNG, JPG, etc.)." } ∧
    (handleImageChange s (some f)).imageFile = s.imageFile ∧
    (handleImageChange s (some f)).prompt = s.prompt ∧
    (handleImageChange s (some f)).isCopied = s.isCopied := by
  simp [handleImageChange, h]

theorem c10_invalid_selection_frame_witness :
    handleImageChange successSession (some txtFile) =
      { successSession with status := Status.error,
                            error := "Please upload a valid image file (PNG, JPG, etc.)." } ∧
    (handleImageChange successSession (some txtFile)).imageFile = successSession.imageFile ∧
    (handleImageChange successSession (some txtFile)).prompt = successSession.prompt ∧
    (handleImageChange successSession (some txtFile)).isCopied = successSession.isCopied :=
  c10_invalid_selection_frame successSession txtFile (by decide)
